import Mathlib

/-!
Verification development for the strata bonding-curve pricing client
(packages/spl-token-bonding/src/index.ts, packages/marketplace-ui/pages/index.tsx,
and the swap form component).

JavaScript number arithmetic is embedded as exact rational arithmetic extended
with the IEEE special values Infinity, -Infinity and NaN (type `JsVal`); the
rounding of individual double operations is idealized away, but the special
value propagation rules of JavaScript (for example `1 / 0 = Infinity` and
`x * Infinity = Infinity` for positive finite `x`) are modelled faithfully,
since several claims hinge on them.
-/

/-- Embedding of a JavaScript number: a finite value (idealized as an exact
rational), positive infinity, negative infinity, or NaN. -/
inductive JsVal where
  | fin (q : ℚ)
  | inf
  | ninf
  | nan
deriving DecidableEq, Repr

/-- JavaScript subtraction on `JsVal`, following IEEE-754 special value rules. -/
def JsVal.sub : JsVal → JsVal → JsVal
  | .nan, _ => .nan
  | _, .nan => .nan
  | .fin a, .fin b => .fin (a - b)
  | .fin _, .inf => .ninf
  | .fin _, .ninf => .inf
  | .inf, .fin _ => .inf
  | .inf, .inf => .nan
  | .inf, .ninf => .inf
  | .ninf, .fin _ => .ninf
  | .ninf, .inf => .ninf
  | .ninf, .ninf => .nan

/-- JavaScript division on `JsVal`, following IEEE-754 special value rules.
Division of a nonzero finite value by zero yields a signed infinity (the
rational embedding has no negative zero, so the divisor zero is treated as
positive zero, which is the value JavaScript produces for `1 - 1`). -/
def JsVal.div : JsVal → JsVal → JsVal
  | .nan, _ => .nan
  | _, .nan => .nan
  | .fin a, .fin b =>
      if b = 0 then (if a = 0 then .nan else if a > 0 then .inf else .ninf)
      else .fin (a / b)
  | .fin _, .inf => .fin 0
  | .fin _, .ninf => .fin 0
  | .inf, .fin b => if b ≥ 0 then .inf else .ninf
  | .ninf, .fin b => if b ≥ 0 then .ninf else .inf
  | .inf, .inf => .nan
  | .inf, .ninf => .nan
  | .ninf, .inf => .nan
  | .ninf, .ninf => .nan

/-- JavaScript multiplication on `JsVal`, following IEEE-754 special value
rules: zero times an infinity is NaN. -/
def JsVal.mul : JsVal → JsVal → JsVal
  | .nan, _ => .nan
  | _, .nan => .nan
  | .fin a, .fin b => .fin (a * b)
  | .fin a, .inf => if a = 0 then .nan else if a > 0 then .inf else .ninf
  | .fin a, .ninf => if a = 0 then .nan else if a > 0 then .ninf else .inf
  | .inf, .fin b => if b = 0 then .nan else if b > 0 then .inf else .ninf
  | .ninf, .fin b => if b = 0 then .nan else if b > 0 then .ninf else .inf
  | .inf, .inf => .inf
  | .inf, .ninf => .ninf
  | .ninf, .inf => .ninf
  | .ninf, .ninf => .inf

/-- Modelled from the spec: `asDecimal` is imported from the `./curves`
(respectively `./pricing`) module, which is not among the provided sources.
The spec fixes the royalty percentage encoding as an "integer numerator over a
fixed denominator equal to the maximum value of an unsigned 32-bit integer
(percentage = numerator/denominator × 100)", so as a decimal fraction of 1.0
the u32 royalty numerator `pct` denotes `pct / 4294967295`. -/
def asDecimal (pct : ℕ) : ℚ :=
  (pct : ℚ) / 4294967295

/-- Embedding of the needed-amount computation of `buyInstructions`
(index.ts lines 1284-1287):
`neededAmount = desiredTargetAmountNum * (1 / (1 - asDecimal(buyTargetRoyaltyPercentage)))`,
performed in JavaScript number arithmetic. -/
def buyNeededAmount (desiredTargetAmountNum : ℚ) (buyTargetRoyaltyPercentage : ℕ) : JsVal :=
  JsVal.mul (.fin desiredTargetAmountNum)
    (JsVal.div (.fin 1) (JsVal.sub (.fin 1) (.fin (asDecimal buyTargetRoyaltyPercentage))))

/-- Embedding of `new BN(Math.floor(v * Math.pow(10, decimals)))` applied to a
JavaScript value `v`: for a finite value this is the floor of the scaled
rational; for Infinity, -Infinity or NaN the BN constructor rejects the input
(modelled as `none`), since `Math.floor` preserves the special value and the
BN constructor only accepts finite integers. -/
def jsScaleFloorBN (v : JsVal) (decimals : ℕ) : Option ℤ :=
  match v with
  | .fin q => some ⌊q * (10 : ℚ) ^ decimals⌋
  | _ => none

/-- C1: for every desired target amount and buy-target royalty numerator
strictly below the 100% encoding (u32 max), the needed target amount computed
by `buyInstructions` before scaling to raw units equals
`desiredTarget / (1 - buyTargetRoyaltyPct)`: the code multiplies by the
reciprocal, which agrees with the division in exact arithmetic. -/
theorem buyNeededAmount_eq_div (d : ℚ) (p : ℕ) (hp : p < 4294967295) :
    buyNeededAmount d p = .fin (d / (1 - asDecimal p)) := by
  have hlt : asDecimal p < 1 := by
    unfold asDecimal
    rw [div_lt_one (by norm_num)]
    exact_mod_cast hp
  have hne : (1 : ℚ) - asDecimal p ≠ 0 := by linarith
  unfold buyNeededAmount
  simp only [JsVal.sub, JsVal.div, if_neg hne, JsVal.mul]
  rw [JsVal.fin.injEq]
  field_simp

/-- Witness for C1 at desired target 100 and royalty numerator 2147483647
(just under 50%). -/
theorem buyNeededAmount_eq_div_witness :
    (2147483647 : ℕ) < 4294967295 ∧
      buyNeededAmount 100 2147483647 = .fin (100 / (1 - asDecimal 2147483647)) :=
  ⟨by norm_num, buyNeededAmount_eq_div 100 2147483647 (by norm_num)⟩

/-- C7: a buy-target royalty numerator of 0 leaves the quoted amount
unchanged: the needed target amount equals the desired target amount. -/
theorem buyNeededAmount_zero_royalty (d : ℚ) :
    buyNeededAmount d 0 = .fin d := by
  unfold buyNeededAmount asDecimal
  norm_num [JsVal.sub, JsVal.div, JsVal.mul]

/-- C4 counterexample: at the exact 100% royalty encoding (numerator
4294967295, the u32 maximum), `buyInstructions` does not fail with a typed
`InvalidRoyalty` error: it performs the division, `1 - asDecimal(pct)` is 0,
`1 / 0` evaluates to Infinity, the needed amount at desired target 100 is
Infinity, and the downstream BN conversion of the scaled amount then rejects
the non-finite value with a generic error. -/
theorem buyNeededAmount_full_royalty_counterexample :
    buyNeededAmount 100 4294967295 = JsVal.inf ∧
      jsScaleFloorBN (buyNeededAmount 100 4294967295) 9 = none := by
  have h : buyNeededAmount 100 4294967295 = JsVal.inf := by
    unfold buyNeededAmount asDecimal
    norm_num [JsVal.sub, JsVal.div, JsVal.mul]
  exact ⟨h, by rw [h]; rfl⟩

/-- C4 amended: for every positive desired target amount, a buy-target royalty
numerator encoding exactly 100% makes `buyInstructions` perform the division
by zero, so the needed amount evaluates to Infinity; no `InvalidRoyalty`
error is raised. -/
theorem buyNeededAmount_full_royalty (d : ℚ) (hd : 0 < d) :
    buyNeededAmount d 4294967295 = JsVal.inf := by
  have h1 : asDecimal 4294967295 = 1 := by
    unfold asDecimal; norm_num
  unfold buyNeededAmount
  rw [h1]
  simp only [JsVal.sub, sub_self, JsVal.div, if_pos rfl]
  norm_num [JsVal.mul, hd, ne_of_gt hd]

/-- Witness for the amended C4 at desired target 7. -/
theorem buyNeededAmount_full_royalty_witness :
    (0 : ℚ) < 7 ∧ buyNeededAmount 7 4294967295 = JsVal.inf :=
  ⟨by norm_num, buyNeededAmount_full_royalty 7 (by norm_num)⟩

/-- Embedding of the `toString` decomposition of a JavaScript number, as
consumed by `toU128` via `num.toString().split(".")`, restricted to the
non-exponential renderings: either one of the special values (whose string
forms "NaN", "Infinity" and "-Infinity" contain no dot, so the whole string
becomes the integer part and fails the finiteness guard), or a finite value
rendered in plain decimal form given by a sign, the list of digits before
the decimal point, and the list of digits after it (empty when the string
has no dot). JavaScript renders zero and finite magnitudes from 1e-6 up to
but excluding 1e21 in this plain form; finite magnitudes outside that range
are rendered in exponential form, which this type does not cover: those
renderings are modelled by `JsNumberRender` below, together with the full
conversion `toU128R`. -/
inductive JsNumberStr where
  | nan
  | inf
  | ninf
  | finite (neg : Bool) (intDigits : List (Fin 10)) (fracDigits : List (Fin 10))
deriving DecidableEq, Repr

/-- Numeric value of a big-endian decimal digit string, as parsed by the BN
constructor. -/
def digitsVal : List (Fin 10) → ℕ
  | [] => 0
  | d :: ds => d.val * 10 ^ ds.length + digitsVal ds

/-- Embedding of the input type of `toU128`: a BN (arbitrary-precision
integer) or a JavaScript number. -/
inductive U128Input where
  | bn (v : ℤ)
  | num (n : JsNumberStr)
deriving DecidableEq, Repr

/-- Embedding of `toU128` (index.ts lines 63-76) on inputs whose rendering
is a special form or plain decimal. A BN input is returned as is. Otherwise
the number is rendered to a string and split at the dot; when the integer
part does not parse as a finite number (the NaN and Infinity string forms),
the result is `new BN(0)`. Otherwise the result is the BN parsed from the
integer-part digits concatenated with the fractional digits sliced to at
most 12 and right-padded with the zero character to exactly 12
(`afteDec.slice(0, 12).padEnd(12, "0")`); a leading minus sign in the
integer part makes the parsed BN negative. Finite numbers rendered in
exponential form fall outside this restricted model; the full conversion
including them is `toU128R` below, which agrees with this one on the cases
covered here (`toU128R_plain_agrees`). -/
def toU128 : U128Input → ℤ
  | .bn v => v
  | .num .nan => 0
  | .num .inf => 0
  | .num .ninf => 0
  | .num (.finite neg intDigits fracDigits) =>
      let sliced := fracDigits.take 12
      let frac12 := sliced ++ List.replicate (12 - sliced.length) (0 : Fin 10)
      (if neg then -1 else 1) * (digitsVal (intDigits ++ frac12) : ℤ)

theorem digitsVal_append (a b : List (Fin 10)) :
    digitsVal (a ++ b) = digitsVal a * 10 ^ b.length + digitsVal b := by
  induction a with
  | nil => simp [digitsVal]
  | cons d ds ih =>
      simp only [List.cons_append, digitsVal, List.append_eq, List.length_append, ih]
      ring

/-- Embedding of the full set of `toString` renderings of a JavaScript
number, including the exponential forms that `JsNumberStr` leaves out:
JavaScript renders finite nonzero magnitudes below 1e-6 and at or above 1e21
in exponential form, for example `(0.0000001).toString() = "1e-7"` and
`(1e21).toString() = "1e+21"`. An exponential rendering is given by the
sign, the mantissa digits before and after the dot (the latter empty when
the mantissa is a single digit, as in "1e-7"), and the sign and digits of
the exponent. Splitting such a rendering at the dot puts the exponent
marker either into the integer part (when the mantissa has no dot) or into
the fractional part (as in "1.5e-7", whose split is "1" and "5e-7"). -/
inductive JsNumberRender where
  | nan
  | inf
  | ninf
  | plain (neg : Bool) (intDigits : List (Fin 10)) (fracDigits : List (Fin 10))
  | exponential (neg : Bool) (mantInt : List (Fin 10)) (mantFrac : List (Fin 10))
      (expNeg : Bool) (expDigits : List (Fin 10))
deriving DecidableEq, Repr

/-- Embedding of the input type of `toU128` over the full set of number
renderings. -/
inductive U128InputR where
  | bn (v : ℤ)
  | num (n : JsNumberRender)
deriving DecidableEq, Repr

/-- Embedding of `toU128` (index.ts lines 63-76) over the full set of
`toString` renderings; `none` models the BN constructor throwing its
"Invalid character" assertion. The BN and special-form cases are as in
`toU128`. For a plain rendering the parsed digit string is the integer part
followed by the 12 sliced-and-padded fractional digits. For an exponential
rendering the finiteness guard still passes, because `Number` parses the
exponential integer part (such as "1e-7") to a finite value; the string
handed to the BN constructor then contains the exponent marker unless the
mantissa has at least 12 fractional digits, in which case
`afteDec.slice(0, 12)` cuts the marker off and the BN parses the first 12
mantissa fraction digits appended to the mantissa integer digits, a value
unrelated to the rendered number; with fewer mantissa fraction digits the
marker survives the slice (or sits in the integer part when the mantissa
has no dot) and the BN constructor throws on it. -/
def toU128R : U128InputR → Option ℤ
  | .bn v => some v
  | .num .nan => some 0
  | .num .inf => some 0
  | .num .ninf => some 0
  | .num (.plain neg intDigits fracDigits) =>
      let sliced := fracDigits.take 12
      let frac12 := sliced ++ List.replicate (12 - sliced.length) (0 : Fin 10)
      some ((if neg then -1 else 1) * (digitsVal (intDigits ++ frac12) : ℤ))
  | .num (.exponential neg mantInt mantFrac _expNeg _expDigits) =>
      if 12 ≤ mantFrac.length then
        some ((if neg then -1 else 1) * (digitsVal (mantInt ++ mantFrac.take 12) : ℤ))
      else none

/-- Agreement of the full conversion with the restricted one on the
renderings the restricted model covers. -/
theorem toU128R_plain_agrees (neg : Bool) (intDigits fracDigits : List (Fin 10)) (v : ℤ) :
    toU128R (.num (.plain neg intDigits fracDigits)) =
      some (toU128 (.num (.finite neg intDigits fracDigits))) ∧
      toU128R (.num .nan) = some (toU128 (.num .nan)) ∧
      toU128R (.bn v) = some (toU128 (.bn v)) :=
  ⟨rfl, rfl, rfl⟩

/-- C2 counterexample: the finite non-negative number 0.0000001 renders as
"1e-7" (JavaScript uses the exponential form below 1e-6), so `toU128` hands
the string "1e-7000000000000" to the BN constructor, which throws on the
exponent marker; the claimed truncated fixed-point value — the integer part
0 followed by the first 12 fractional digits 000000100000, that is 100000 —
is not returned. -/
theorem toU128_exponential_counterexample :
    toU128R (.num (.exponential false [1] [] true [7])) = none ∧
      toU128R (.num (.exponential false [1] [] true [7])) ≠ some 100000 := by
  refine ⟨rfl, ?_⟩
  intro h
  rw [show toU128R (.num (.exponential false [1] [] true [7])) = none from rfl] at h
  exact Option.noConfusion h

/-- C2 amended: for every finite non-negative decimal number whose
`toString` rendering is plain decimal (zero and magnitudes from 1e-6 below
1e21), `toU128` returns the integer formed from the integer part followed
by exactly the first 12 fractional digits: digits beyond the 12th are
truncated, fewer digits are right-padded with zeros, so the conversion to
the 12-fractional-digit fixed-point representation truncates rather than
rounds; a BN input is returned unchanged. Exponentially rendered inputs are
not converted to the truncated value: the BN constructor throws on the
exponent marker (or, with at least 12 mantissa fraction digits, parses an
unrelated value). -/
theorem toU128_plain_render_truncates (intDigits fracDigits : List (Fin 10)) (v : ℤ) :
    toU128R (.num (.plain false intDigits fracDigits)) =
      some ((digitsVal intDigits : ℤ) * 10 ^ 12 +
        (digitsVal (fracDigits.take 12 ++
          List.replicate (12 - (fracDigits.take 12).length) (0 : Fin 10)) : ℤ)) ∧
      toU128R (.bn v) = some v := by
  refine ⟨?_, rfl⟩
  have hlen :
      (fracDigits.take 12 ++
        List.replicate (12 - (fracDigits.take 12).length) (0 : Fin 10)).length = 12 := by
    have h1 : (fracDigits.take 12).length ≤ 12 := by
      simp [List.length_take]
    simp only [List.length_append, List.length_replicate]
    omega
  simp only [toU128R, Bool.false_eq_true, if_false, one_mul, digitsVal_append, hlen,
    Option.some.injEq]
  push_cast
  ring

/-- C10: a number input whose integer part does not parse as a finite number
(the toString forms NaN, Infinity and -Infinity) is silently converted by
`toU128` to the BN value 0 rather than raising an error. -/
theorem toU128_nonfinite_zero :
    toU128 (.num .nan) = 0 ∧ toU128 (.num .inf) = 0 ∧ toU128 (.num .ninf) = 0 :=
  ⟨rfl, rfl, rfl⟩

/-- Embedding of the raw primitive curve configuration sent to the program:
the tagged union produced by `toRawPrimitiveConfig`, whose only variant here
is `exponentialCurveV0` with fields in the order c, b, pow, frac (c and b are
u128 fixed-point BNs, pow and frac plain integers). -/
inductive PrimitiveCurveV0 where
  | exponentialCurveV0 (c : ℤ) (b : ℤ) (pow : ℕ) (frac : ℕ)
deriving DecidableEq, Repr

/-- Embedding of one entry of the `timeV0.curves` list: an offset in seconds
from the go-live date and a primitive curve configuration. -/
structure TimeCurveEntryV0 where
  offset : ℤ
  curve : PrimitiveCurveV0
deriving DecidableEq, Repr

/-- Embedding of the raw `CurveV0` account definition: `definition.timeV0`
with its list of offset/curve entries. -/
structure CurveV0 where
  curves : List TimeCurveEntryV0
deriving DecidableEq, Repr

/-- Embedding of the `ExponentialCurveConfig` class fields: c and b are BNs
(already converted through `toU128` by the constructor), pow and frac plain
numbers. -/
structure ExponentialCurveConfig where
  c : ℤ
  b : ℤ
  pow : ℕ
  frac : ℕ
deriving DecidableEq, Repr

/-- Embedding of the `ExponentialCurveConfig` constructor (index.ts lines
87-102): `this.c = toU128(c); this.b = toU128(b); this.pow = pow;
this.frac = frac`. -/
def ExponentialCurveConfig.ofArgs (c b : U128Input) (pow frac : ℕ) :
    ExponentialCurveConfig :=
  { c := toU128 c, b := toU128 b, pow := pow, frac := frac }

/-- Embedding of `ExponentialCurveConfig.toRawPrimitiveConfig` (index.ts
lines 104-117). -/
def ExponentialCurveConfig.toRawPrimitiveConfig (e : ExponentialCurveConfig) :
    PrimitiveCurveV0 :=
  .exponentialCurveV0 e.c e.b e.pow e.frac

/-- Embedding of `ExponentialCurveConfig.toRawConfig` (index.ts lines
119-134): a `timeV0` definition with the single entry
`{ offset: new BN(0), curve: this.toRawPrimitiveConfig() }`. -/
def ExponentialCurveConfig.toRawConfig (e : ExponentialCurveConfig) : CurveV0 :=
  { curves := [{ offset := 0, curve := e.toRawPrimitiveConfig }] }

/-- C9: for every `ExponentialCurveConfig`, `toRawConfig` produces a
time-composite definition with exactly one entry, at offset 0, whose curve is
the exponential primitive with fields in the order c, b, pow, frac, where c
and b went through the `toU128` 12-decimal fixed-point conversion and pow and
frac are passed through unchanged. -/
theorem exponentialCurveConfig_toRawConfig (c b : U128Input) (pow frac : ℕ) :
    ((ExponentialCurveConfig.ofArgs c b pow frac).toRawConfig).curves =
      [{ offset := 0,
         curve := .exponentialCurveV0 (toU128 c) (toU128 b) pow frac }] :=
  rfl

/-- Embedding of `TimeCurveConfig.addCurve` (index.ts lines 143-154) as a
state transformer on the `curves` list: when the list is empty and the
offset is nonzero it throws `Error("First time offset must be 0")`, and
otherwise appends the new offset/curve pair. -/
def addCurve (curves : List TimeCurveEntryV0) (timeOffset : ℤ)
    (curve : PrimitiveCurveV0) : Except String (List TimeCurveEntryV0) :=
  if curves.length = 0 ∧ timeOffset ≠ 0 then
    .error "First time offset must be 0"
  else
    .ok (curves ++ [{ offset := timeOffset, curve := curve }])

/-- Sequence of `addCurve` calls building a `TimeCurveConfig` from the empty
initial state, stopping at the first thrown error. -/
def addCurves (calls : List (ℤ × PrimitiveCurveV0)) :
    Except String (List TimeCurveEntryV0) :=
  calls.foldlM (fun st call => addCurve st call.1 call.2) []

/-- Offsets strictly increasing starting from zero, the condition the claim
says is enforced at construction time. -/
def offsetsStrictlyIncreasingFromZero (curves : List TimeCurveEntryV0) : Prop :=
  (curves.map TimeCurveEntryV0.offset).head? = some 0 ∧
    (curves.map TimeCurveEntryV0.offset).Chain' (· < ·)

instance (curves : List TimeCurveEntryV0) :
    Decidable (offsetsStrictlyIncreasingFromZero curves) := by
  unfold offsetsStrictlyIncreasingFromZero
  infer_instance

/-- Shorthand for a concrete primitive curve used in concrete evaluations:
the exponential configuration with all-default arguments. -/
def defaultPrim : PrimitiveCurveV0 :=
  (ExponentialCurveConfig.ofArgs
    (.num (.finite false [1] [])) (.num (.finite false [0] [])) 1 1).toRawPrimitiveConfig

/-- C3 counterexample: building a time-composite curve by
`addCurve(0, e).addCurve(0, e)` succeeds even though the offsets `[0, 0]` are
not strictly increasing, so non-increasing later offsets are not rejected at
construction time, contradicting the claim. -/
theorem addCurves_accepts_nonincreasing :
    addCurves [(0, defaultPrim), (0, defaultPrim)] =
      .ok [{ offset := 0, curve := defaultPrim }, { offset := 0, curve := defaultPrim }] ∧
      ¬ offsetsStrictlyIncreasingFromZero
        [{ offset := 0, curve := defaultPrim }, { offset := 0, curve := defaultPrim }] := by
  constructor
  · rfl
  · intro h
    simpa using h.2

/-- C3 amended: construction only validates the first offset: the first
`addCurve` call fails (with a plain `Error`, not a typed
`InvalidCurveDefinition`) exactly when its offset is nonzero, and every later
call succeeds unconditionally, appending its entry without comparing offsets
against the predecessor. -/
theorem addCurve_checks_only_first_offset (st : List TimeCurveEntryV0)
    (off : ℤ) (c : PrimitiveCurveV0) (hoff : off ≠ 0) (hst : st ≠ []) :
    addCurve [] off c = .error "First time offset must be 0" ∧
      (∀ o : ℤ, addCurve [] 0 c = .ok [{ offset := 0, curve := c }] ∧
        addCurve st o c = .ok (st ++ [{ offset := o, curve := c }])) := by
  refine ⟨?_, fun o => ⟨?_, ?_⟩⟩
  · simp [addCurve, hoff]
  · simp [addCurve]
  · have hlen : st.length ≠ 0 := by
      simpa [List.length_eq_zero] using hst
    simp [addCurve, hlen]

/-- Witness for the amended C3: offset 5 on the first call errors, while a
second call with the non-increasing offset 0 after a first call at offset 0
succeeds. -/
theorem addCurve_checks_only_first_offset_witness :
    (5 : ℤ) ≠ 0 ∧ [({ offset := 0, curve := defaultPrim } : TimeCurveEntryV0)] ≠ [] ∧
      (addCurve [] 5 defaultPrim = .error "First time offset must be 0" ∧
        (∀ o : ℤ, addCurve [] 0 defaultPrim =
            .ok [{ offset := 0, curve := defaultPrim }] ∧
          addCurve [{ offset := 0, curve := defaultPrim }] o defaultPrim =
            .ok ([{ offset := 0, curve := defaultPrim }] ++
              [{ offset := o, curve := defaultPrim }]))) :=
  ⟨by norm_num, by simp,
    addCurve_checks_only_first_offset
      [{ offset := 0, curve := defaultPrim }] 5 defaultPrim
      (by norm_num) (by simp)⟩

/-- Abstraction of the pricing-curve object returned by `getCurve`: its
implementation lives in the `./curves` module, which is not among the
provided sources, so its four query functions are taken as opaque parameters
(each maps the human-unit amount and royalty percentage numerators to a
quoted amount, respectively to the ordered list of solver root estimates as
JavaScript numbers). -/
structure CurveFns where
  buyTargetAmount : ℚ → ℕ → ℕ → ℚ
  buyWithBaseAmount : ℚ → ℕ → ℕ → ℚ
  buyTargetAmountRootEstimates : ℚ → ℕ → List JsNumberStr
  buyWithBaseRootEstimates : ℚ → ℕ → List JsNumberStr

/-- Embedding of the `buyTargetAmount` branch argument of `BuyV0Args`
(index.ts lines 1299-1304): `targetAmount` is
`new BN(Math.floor(neededAmount * 10 ** targetMint.decimals))`, which fails
(modelled as `none`) when the needed amount is not finite, and
`maximumPrice` is `toBN(maxPrice, baseMint)`, the ceiling of the max price
scaled by the base-mint decimals. -/
structure BuyTargetAmountV0 where
  targetAmount : Option ℤ
  maximumPrice : ℤ
deriving DecidableEq, Repr

/-- Embedding of the `buyWithBase` branch argument of `BuyV0Args` (index.ts
lines 1322-1327). -/
structure BuyWithBaseV0 where
  baseAmount : ℤ
  minimumTargetAmount : ℤ
deriving DecidableEq, Repr

/-- Embedding of the `BuyV0Args` instruction arguments (index.ts lines
1360-1366). -/
structure BuyV0Args where
  buyTargetAmount : Option BuyTargetAmountV0
  buyWithBase : Option BuyWithBaseV0
  rootEstimates : Option (List ℤ)
deriving DecidableEq, Repr

/-- Embedding of the argument computation of `buyInstructions` (index.ts
lines 1279-1366), with account fetching and key derivation stripped away.
The four locals start as null/0; the `desiredTargetAmount` branch computes
the needed amount, the curve quote, the max price with slippage, and the
root-estimate list from `buyTargetAmountRootEstimates`; the `baseAmount`
branch computes the slippage-adjusted minimum target output and overwrites
the root-estimate list with `buyWithBaseRootEstimates`; finally the
instruction arguments carry `rootEstimates?.map(toU128)`. -/
def buildBuyV0Args (curve : CurveFns)
    (buyBaseRoyaltyPercentage buyTargetRoyaltyPercentage : ℕ)
    (desiredTargetAmount baseAmount : Option ℚ) (slippage : ℚ)
    (targetDecimals baseDecimals : ℕ) : BuyV0Args :=
  let step1 : Option BuyTargetAmountV0 × Option (List JsNumberStr) :=
    match desiredTargetAmount with
    | none => (none, none)
    | some desiredTargetAmountNum =>
        let neededAmount := buyNeededAmount desiredTargetAmountNum buyTargetRoyaltyPercentage
        let curveAmount := curve.buyTargetAmount desiredTargetAmountNum
          buyBaseRoyaltyPercentage buyTargetRoyaltyPercentage
        let maxPrice := curveAmount * (1 + slippage)
        (some { targetAmount := jsScaleFloorBN neededAmount targetDecimals,
                maximumPrice := ⌈maxPrice * (10 : ℚ) ^ baseDecimals⌉ },
         some (curve.buyTargetAmountRootEstimates desiredTargetAmountNum
           buyTargetRoyaltyPercentage))
  let step2 : Option BuyWithBaseV0 × Option (List JsNumberStr) :=
    match baseAmount with
    | none => (none, step1.2)
    | some baseAmountNum =>
        let minAmount := curve.buyWithBaseAmount baseAmountNum
          buyBaseRoyaltyPercentage buyTargetRoyaltyPercentage * (1 - slippage)
        (some { baseAmount := ⌈baseAmountNum * (10 : ℚ) ^ baseDecimals⌉,
                minimumTargetAmount := ⌈minAmount * (10 : ℚ) ^ targetDecimals⌉ },
         some (curve.buyWithBaseRootEstimates baseAmountNum buyBaseRoyaltyPercentage))
  { buyTargetAmount := step1.1,
    buyWithBase := step2.1,
    rootEstimates := step2.2.map (List.map (fun n => toU128 (.num n))) }

/-- C5: the built buy instruction arguments carry the full ordered
root-estimate sequence of the solver, element-wise converted through
`toU128`: in the `desiredTargetAmount`-driven case the list comes from
`buyTargetAmountRootEstimates` at the buy-target royalty, and in the
`baseAmount`-driven case from `buyWithBaseRootEstimates` at the buy-base
royalty. -/
theorem buildBuyV0Args_rootEstimates (curve : CurveFns)
    (basePct targetPct : ℕ) (d b slippage : ℚ) (targetDecimals baseDecimals : ℕ) :
    (buildBuyV0Args curve basePct targetPct (some d) none slippage
        targetDecimals baseDecimals).rootEstimates =
      some ((curve.buyTargetAmountRootEstimates d targetPct).map
        (fun n => toU128 (.num n))) ∧
    (buildBuyV0Args curve basePct targetPct none (some b) slippage
        targetDecimals baseDecimals).rootEstimates =
      some ((curve.buyWithBaseRootEstimates b basePct).map
        (fun n => toU128 (.num n))) :=
  ⟨rfl, rfl⟩

/-- Embedding of the minimum-price computation of `sellInstructions`
(packages/spl-token-bonding/src/index.ts lines 1529-1537):
`Math.ceil(reclaimedAmount * (1 - slippage) * Math.pow(10, baseMint.decimals))`.
Both mint decimal counts are passed so that the choice between them is part
of the embedded computation. -/
def sellMinPrice (reclaimedAmount slippage : ℚ)
    (baseDecimals targetDecimals : ℕ) : ℤ :=
  ⌈reclaimedAmount * (1 - slippage) * (10 : ℚ) ^ baseDecimals⌉

/-- Embedding of the minimum-price computation of `sellV0Instructions`
(packages/marketplace-ui/pages/index.tsx lines 1019-1026):
`Math.ceil(reclaimedAmount * (1 - slippage) * Math.pow(10, targetMint.decimals))`,
which scales by the target-mint decimals. -/
def sellV0MinPrice (reclaimedAmount slippage : ℚ)
    (baseDecimals targetDecimals : ℕ) : ℤ :=
  ⌈reclaimedAmount * (1 - slippage) * (10 : ℚ) ^ targetDecimals⌉

/-- C6: at reclaimed proceeds 1, slippage 0, base-mint decimals 2 and
target-mint decimals 9, the claimed raw minimum price is
`1 * (1 - 0) * 10 ^ 2 = 100`; `sellInstructions` in spl-token-bonding
produces exactly that, but `sellV0Instructions` in marketplace-ui produces
`10 ^ 9 = 1000000000`, scaling by the target-mint decimals instead of the
base-mint decimals required for a base-asset-denominated bound. -/
theorem sellMinPrice_decimals_divergence :
    sellMinPrice 1 0 2 9 = 100 ∧
      sellV0MinPrice 1 0 2 9 = 1000000000 ∧
      sellV0MinPrice 1 0 2 9 ≠ sellMinPrice 1 0 2 9 := by
  refine ⟨?_, ?_, ?_⟩ <;> norm_num [sellMinPrice, sellV0MinPrice]

/-- Embedding of the JavaScript `toFixed(2)` rendering on the exact rational
value: the ECMAScript algorithm picks the integer `n` minimizing
`n / 100 - x`, preferring the larger `n` on ties, which for non-negative `x`
is `⌊100 x + 1/2⌋`; the rendered two-fractional-digit string denotes
`n / 100`. -/
def jsToFixed2 (q : ℚ) : ℚ :=
  (⌊q * 100 + 1 / 2⌋ : ℚ) / 100

/-- Embedding of `humanReadablePercentage` from the swap form component
(src/unnamed/part_000 lines 49-54): a missing or zero u32 numerator returns
the number 0, a nonzero numerator returns
`((u32 / 4294967295) * 100).toFixed(2)`, whose numeric denotation is modelled
by `jsToFixed2`. -/
def humanReadablePercentage (u32 : Option ℕ) : ℚ :=
  match u32 with
  | none => 0
  | some u => if u ≠ 0 then jsToFixed2 ((u : ℚ) / 4294967295 * 100) else 0

/-- C8: for every nonzero u32 royalty numerator, the human-readable royalty
percentage is the numerator divided by 4294967295 (the maximum unsigned
32-bit value) times 100, rendered with two fractional digits (round half up
on the exact value, per the toFixed algorithm); for a zero or missing
numerator the result is 0. -/
theorem humanReadablePercentage_spec (u : ℕ) (hu : 0 < u) :
    humanReadablePercentage (some u) =
      (⌊(u : ℚ) / 4294967295 * 100 * 100 + 1 / 2⌋ : ℚ) / 100 ∧
      humanReadablePercentage (some 0) = 0 ∧
      humanReadablePercentage none = 0 := by
  refine ⟨?_, rfl, rfl⟩
  have hne : u ≠ 0 := Nat.pos_iff_ne_zero.mp hu
  simp [humanReadablePercentage, jsToFixed2, hne]

/-- Witness for C8 at the full-royalty numerator 4294967295, whose
human-readable percentage is exactly 100. -/
theorem humanReadablePercentage_spec_witness :
    0 < 4294967295 ∧
      humanReadablePercentage (some 4294967295) =
        (⌊(4294967295 : ℚ) / 4294967295 * 100 * 100 + 1 / 2⌋ : ℚ) / 100 ∧
      humanReadablePercentage (some 0) = 0 ∧
      humanReadablePercentage none = 0 :=
  ⟨by norm_num, humanReadablePercentage_spec 4294967295 (by norm_num)⟩
